import Mathlib

/-! Chat controllers (`src/controllers/chatControllers.js`)

A shallow embedding of the group-chat handlers: every handler is a pure function from the
database, the authenticated user and the request fields to an `Outcome` holding the HTTP
response, the database afterwards and the ordered log of collaborator calls (document
store, blob storage, event emitter).
-/

set_option autoImplicit false

namespace ChatControllers

/-! ## Data model -/

/-- Document identifiers; the handlers compare them through `toString()`, that is by value. -/
abbrev ObjectId := Nat

/-- User document, as read with the projection `"name"`. -/
structure User where
  _id : ObjectId
  name : String
deriving DecidableEq, Repr

/-- Chat document. `creator` is `none` when the field is undefined (direct chats). -/
structure Chat where
  _id : ObjectId
  name : String
  groupChat : Bool
  creator : Option ObjectId
  members : List ObjectId
deriving DecidableEq, Repr

/-- Stored attachment: what the uploader returns for one file. -/
structure Attachment where
  public_id : String
  resource_type : String
  url : String
deriving DecidableEq, Repr

/-- The pair `{ public_id, resource_type }` pushed by `deleteChat`. -/
structure AttachmentDetail where
  public_id : String
  resource_type : String
deriving DecidableEq, Repr

/-- Message document. -/
structure Message where
  _id : ObjectId
  chat : ObjectId
  sender : ObjectId
  content : String
  attachments : List Attachment
  createdAt : Nat
deriving DecidableEq, Repr

/-- An uploaded file of `req.files`, identified by its original name. -/
structure File where
  originalname : String
deriving DecidableEq, Repr

/-- The three collections. -/
structure DB where
  chats : List Chat
  users : List User
  messages : List Message
deriving DecidableEq, Repr

/-! ## Responses, events and the log of collaborator calls -/

/-- The `sender` object of `messageForRealTime`. -/
structure SenderView where
  _id : ObjectId
  name : String
deriving DecidableEq, Repr

/-- The object `messageForRealTime` of `sendAttachments`. -/
structure MessageForRealTime where
  content : String
  attachments : List Attachment
  sender : SenderView
  chat : ObjectId
deriving DecidableEq, Repr

/-- JSON bodies the handlers send. -/
inductive Body where
  | text (success : Bool) (message : String)
  | sent (success : Bool) (message : Message)
  | page (success : Bool) (messages : List Message) (totalPages : Nat)
deriving DecidableEq, Repr

/-- The call `res.status(status).json(body)`. -/
structure Response where
  status : Nat
  body : Body
deriving DecidableEq, Repr

/-- Event names of `constants/events`. -/
inductive EventName where
  | ALERT
  | REFETCH_CHATS
  | NEW_MESSAGE_ALERT
  | NEW_MESSAGE
deriving DecidableEq, Repr

/-- Fourth argument of `emitEvent`. -/
inductive EventData where
  | absent
  | text (message : String)
  | alert (message : String) (chatId : ObjectId)
  | newMessage (message : MessageForRealTime) (chatId : ObjectId)
  | chatOnly (chatId : ObjectId)
deriving DecidableEq, Repr

/-- One collaborator call. The `users` of `emit` is `none` when the argument is `undefined`. -/
inductive Effect where
  | chatFindById (id : ObjectId)
  | userFindById (id : ObjectId)
  | chatCreate (doc : Chat)
  | chatSave (doc : Chat)
  | chatDeleteOne (id : ObjectId)
  | messageFindWithAttachments (chatId : ObjectId)
  | messageFindPage (chatId : ObjectId) (skip : Int) (limit : Nat)
  | messageCount (chatId : ObjectId)
  | messageCreate (doc : Message)
  | messageDeleteMany (chatId : ObjectId)
  | uploadFiles (files : List File)
  | deleteFiles (details : List AttachmentDetail)
  | emit (event : EventName) (users : Option (List ObjectId)) (data : EventData)
deriving DecidableEq, Repr

/-- Result of running a handler. `response = none`: the handler threw outside any
`try`/`catch`, so nothing was sent. -/
structure Outcome where
  response : Option Response
  db : DB
  log : List Effect
deriving DecidableEq, Repr

/-- The body `{ success, message }` with the given status. -/
def json (status : Nat) (success : Bool) (message : String) : Response :=
  { status := status, body := Body.text success message }

/-! ## Document store -/

/-- Query `Chat.findById(id)`: the document or `null`. -/
def Chat.findById (db : DB) (id : ObjectId) : Option Chat :=
  db.chats.find? (fun c => decide (c._id = id))

/-- Query `User.findById(id, "name")`: the document or `null`. -/
def User.findById (db : DB) (id : ObjectId) : Option User :=
  db.users.find? (fun u => decide (u._id = id))

/-- Effect of `chat.save()` for a loaded document: the stored document with that `_id` is replaced. -/
def Chat.save (db : DB) (doc : Chat) : DB :=
  { db with chats := db.chats.map (fun c => if c._id = doc._id then doc else c) }

/-- Effect of `Chat.create(doc)`. -/
def Chat.create (db : DB) (doc : Chat) : DB :=
  { db with chats := db.chats ++ [doc] }

/-- Effect of `chat.deleteOne()`. -/
def Chat.deleteOne (db : DB) (id : ObjectId) : DB :=
  { db with chats := db.chats.filter (fun c => decide (c._id ≠ id)) }

/-- Effect of `Message.create(doc)`. -/
def Message.create (db : DB) (doc : Message) : DB :=
  { db with messages := db.messages ++ [doc] }

/-- Effect of `Message.deleteMany({ chat: chatId })`. -/
def Message.deleteMany (db : DB) (chatId : ObjectId) : DB :=
  { db with messages := db.messages.filter (fun m => decide (m.chat ≠ chatId)) }

/-- Query `Message.find({ chat: chatId, attachments: { $exists: true, $ne: [] } })`. -/
def Message.findWithAttachments (db : DB) (chatId : ObjectId) : List Message :=
  db.messages.filter (fun m => decide (m.chat = chatId) && !m.attachments.isEmpty)

/-- Query `Message.countDocuments({ chat: chatId })`. -/
def Message.countDocuments (db : DB) (chatId : ObjectId) : Nat :=
  (db.messages.filter (fun m => decide (m.chat = chatId))).length

/-- Order of `.sort({ createdAt: -1 })`: newest first. -/
def newerFirst (a b : Message) : Prop := b.createdAt ≤ a.createdAt

instance : DecidableRel newerFirst := fun a b => Nat.decLe b.createdAt a.createdAt

/-- Query `Message.find({ chat: chatId }).sort({ createdAt: -1 })`. -/
def Message.findSorted (db : DB) (chatId : ObjectId) : List Message :=
  (db.messages.filter (fun m => decide (m.chat = chatId))).insertionSort newerFirst

/-! ## Membership handlers -/

/-- The elements of `allNewMembers` when none is `null`; `none` when the `filter` callback
of `addMembers` dereferences a `null` (TypeError). -/
def derefAll : List (Option User) → Option (List User)
  | [] => some []
  | none :: _ => none
  | some u :: rest => (derefAll rest).map (fun us => u :: us)

/-- The constant `uniqueMembers` of `addMembers`: the identifiers of the looked-up users
that `chat.members` does not include. -/
def uniqueMembers (chat : Chat) (allNewMembers : List User) : List ObjectId :=
  (allNewMembers.filter (fun i => !chat.members.contains i._id)).map (fun i => i._id)

/-- Handler `newGroupChat`; `newId` is the identifier the store gives the new document. -/
def newGroupChat (db : DB) (user : ObjectId) (newId : ObjectId) (name : String)
    (members : List ObjectId) : Outcome :=
  let allMembers := members ++ [user]
  let doc : Chat :=
    { _id := newId, name := name, groupChat := true, creator := some user, members := allMembers }
  { response := some (json 201 true "Group chat created")
    db := Chat.create db doc
    log := [Effect.chatCreate doc,
            Effect.emit EventName.ALERT (some allMembers)
              (EventData.text ("Welcome to " ++ name ++ " group")),
            Effect.emit EventName.REFETCH_CHATS (some members) EventData.absent] }

/-- Handler `addMembers`; `members = none` is a body without the field. -/
def addMembers (db : DB) (user : ObjectId) (chatId : ObjectId)
    (members : Option (List ObjectId)) : Outcome :=
  let log0 := [Effect.chatFindById chatId]
  match Chat.findById db chatId with
  | none => { response := some (json 404 false "Chat not found"), db := db, log := log0 }
  | some chat =>
    match members with
    | none =>
      { response := some (json 400 false "Please provide members to add"), db := db, log := log0 }
    | some [] =>
      { response := some (json 400 false "Please provide members to add"), db := db, log := log0 }
    | some (m :: ms) =>
      if chat.groupChat = false then
        { response := some (json 400 false "This is not a group chat"), db := db, log := log0 }
      else
        match chat.creator with
        | none => { response := none, db := db, log := log0 }
        | some creator =>
          if creator ≠ user then
            { response := some (json 403 false "You are not allowed to add members")
              db := db, log := log0 }
          else
            let log1 := log0 ++ (m :: ms).map Effect.userFindById
            match derefAll ((m :: ms).map (User.findById db)) with
            | none => { response := none, db := db, log := log1 }
            | some allNewMembers =>
              let pushed := chat.members ++ uniqueMembers chat allNewMembers
              if pushed.length > 100 then
                { response := some (json 400 false "Group members limit reached")
                  db := db, log := log1 }
              else
                let doc := { chat with members := pushed }
                let allUsersName := ", ".intercalate (allNewMembers.map (fun u => u.name))
                { response := some (json 200 true "Members added successfully")
                  db := Chat.save db doc
                  log := log1 ++
                    [Effect.chatSave doc,
                     Effect.emit EventName.ALERT (some pushed)
                       (EventData.alert (allUsersName ++ " has been added in the group") chatId),
                     Effect.emit EventName.REFETCH_CHATS (some pushed) EventData.absent] }

/-- The `e.message` of the TypeError raised by reading `property` of `value`, which is
`null` or `undefined`. -/
def typeErrorMessage (value property : String) : String :=
  "Cannot read properties of " ++ value ++ " (reading \x27" ++ property ++ "\x27)"

/-- Handler `removeMembers`. -/
def removeMembers (db : DB) (user : ObjectId) (userId : ObjectId) (chatId : ObjectId) : Outcome :=
  let log0 := [Effect.chatFindById chatId, Effect.userFindById userId]
  let userThatWillBeRemoved := User.findById db userId
  match Chat.findById db chatId with
  | none => { response := some (json 404 false "Chat not found"), db := db, log := log0 }
  | some chat =>
    if chat.groupChat = false then
      { response := some (json 400 false "This is not a group chat"), db := db, log := log0 }
    else
      match chat.creator with
      | none => { response := some (json 500 false "Internal server error"), db := db, log := log0 }
      | some creator =>
        if creator ≠ user then
          { response := some (json 403 false "You are not allowed to remove members")
            db := db, log := log0 }
        else if chat.members.length ≤ 3 then
          { response := some (json 400 false "Group must have at least 3 members")
            db := db, log := log0 }
        else
          let allChatMembers := chat.members
          let doc := { chat with members := chat.members.filter (fun i => decide (i ≠ userId)) }
          let log1 := log0 ++ [Effect.chatSave doc]
          match userThatWillBeRemoved with
          | none =>
            { response := some (json 500 false "Internal server error")
              db := Chat.save db doc, log := log1 }
          | some removed =>
            { response := some (json 200 true "Member removed successfully")
              db := Chat.save db doc
              log := log1 ++
                [Effect.emit EventName.ALERT (some doc.members)
                   (EventData.alert (removed.name ++ " has been removed from the group") chatId),
                 Effect.emit EventName.REFETCH_CHATS (some allChatMembers) EventData.absent] }

/-- Array read `xs[i]` for a number `i`: `undefined` outside the array. -/
def arrayAt {α : Type} (xs : List α) (i : Int) : Option α :=
  if 0 ≤ i then xs[i.toNat]? else none

/-- Rounding of a rational to the nearest integer, ties to the even one. -/
def roundHalfEven (q : ℚ) : Int :=
  if q - ⌊q⌋ < 1 / 2 then ⌊q⌋
  else if 1 / 2 < q - ⌊q⌋ then ⌊q⌋ + 1
  else if ⌊q⌋ % 2 = 0 then ⌊q⌋ else ⌊q⌋ + 1

/-- The binary64 number nearest to a non-negative `x`, ties to the even significand: the
significand has 53 bits, so in the binade `2^e <= x < 2^(e+1)` the spacing is `2^(e-52)`, and
below `2^(-1022)` it stays `2^(-1074)`. Overflow to infinity is left out: the products
formed here are below an array length. -/
def binary64Pos (x : ℚ) : ℚ :=
  (roundHalfEven (x / 2 ^ (max (Int.log 2 x) (-1022) - 52)) : ℚ)
    * 2 ^ (max (Int.log 2 x) (-1022) - 52)

/-- Rounding of a real result to binary64, as every arithmetic operation on numbers does. -/
def binary64 (x : ℚ) : ℚ :=
  if x < 0 then -binary64Pos (-x) else binary64Pos x

/-- The index `Math.floor(Math.random() * length)` for the random value `r`: the product is
the binary64 product of two numbers (an array length is below `2^32`, so it is a binary64
number itself), and `Math.floor` of a binary64 number is exact. -/
def randomElement (r : ℚ) (length : Nat) : Int :=
  ⌊binary64 (r * (length : ℚ))⌋

/-- Handler `leaveGroup`; `r` is the number `Math.random()` returns if it is called. -/
def leaveGroup (db : DB) (user : ObjectId) (chatId : ObjectId) (r : ℚ) : Outcome :=
  let log0 := [Effect.chatFindById chatId]
  match Chat.findById db chatId with
  | none => { response := some (json 404 false "Chat not found"), db := db, log := log0 }
  | some chat =>
    if chat.groupChat = false then
      { response := some (json 400 false "This is not a group chat"), db := db, log := log0 }
    else
      let remainingMembers := chat.members.filter (fun member => decide (member ≠ user))
      if remainingMembers.length < 3 then
        { response := some (json 400 false "Group must have at least 3 members")
          db := db, log := log0 }
      else
        match chat.creator with
        | none =>
          { response := some (json 500 false "Internal server error"), db := db, log := log0 }
        | some creator =>
          let newCreator :=
            if creator = user then
              arrayAt remainingMembers (randomElement r remainingMembers.length)
            else some creator
          let doc := { chat with creator := newCreator, members := remainingMembers }
          let log1 := log0 ++ [Effect.userFindById user, Effect.chatSave doc]
          match User.findById db user with
          | none =>
            { response := some (json 500 false "Internal server error")
              db := Chat.save db doc, log := log1 }
          | some me =>
            { response := some (json 200 true "You have left the group")
              db := Chat.save db doc
              log := log1 ++
                [Effect.emit EventName.ALERT (some doc.members)
                   (EventData.alert (me.name ++ " has left the group") chatId)] }

/-- Handler `renameChat`. -/
def renameChat (db : DB) (user : ObjectId) (chatId : ObjectId) (name : String) : Outcome :=
  let log0 := [Effect.chatFindById chatId]
  match Chat.findById db chatId with
  | none => { response := some (json 404 false "Chat not found"), db := db, log := log0 }
  | some chat =>
    if chat.groupChat = false then
      { response := some (json 400 false "This is not a group chat"), db := db, log := log0 }
    else
      match chat.creator with
      | none => { response := none, db := db, log := log0 }
      | some creator =>
        if creator ≠ user then
          { response := some (json 403 false "You are not allowed to rename the group")
            db := db, log := log0 }
        else
          let doc := { chat with name := name }
          { response := some (json 200 true "Group chat renamed")
            db := Chat.save db doc
            log := log0 ++
              [Effect.chatSave doc,
               Effect.emit EventName.ALERT (some doc.members)
                 (EventData.alert ("Group chat renamed to " ++ name) chatId)] }

/-! ## Deletion, attachments and the message feed -/

/-- Property read `chat[key]` for a list-valued key: the document has the array `members`;
any other key reads `undefined`. -/
def Chat.listProperty (chat : Chat) (key : String) : Option (List ObjectId) :=
  if key = "members" then some chat.members else none

/-- The two nested `forEach` loops of `deleteChat` filling `attachmentDetails`. -/
def collectAttachmentDetails (messagesWithAttachments : List Message) : List AttachmentDetail :=
  messagesWithAttachments.foldl
    (fun details message =>
      message.attachments.foldl
        (fun acc a => acc ++ [{ public_id := a.public_id, resource_type := a.resource_type }])
        details)
    []

/-- Handler `deleteChat`; `deleteFilesFromCloudinary` is the blob-storage helper of
`utils/features`, which resolves or rejects with a message. -/
def deleteChat (deleteFilesFromCloudinary : List AttachmentDetail → Except String Unit)
    (db : DB) (user : ObjectId) (chatId : ObjectId) : Outcome :=
  let log0 := [Effect.chatFindById chatId]
  match Chat.findById db chatId with
  | none => { response := some (json 404 false "Chat not found"), db := db, log := log0 }
  | some chat =>
    let members := chat.listProperty "memebers"
    if chat.groupChat = true ∧ chat.creator = none then
      { response := some (json 500 false (typeErrorMessage "undefined" "toString"))
        db := db, log := log0 }
    else if chat.groupChat = true ∧ chat.creator ≠ some user then
      { response := some (json 403 false "You are not allowed to delete the group")
        db := db, log := log0 }
    else if chat.groupChat = false ∧ ¬ chat.members.contains user then
      { response := some (json 403 false "You are not allowed to delete the chat")
        db := db, log := log0 }
    else
      let messagesWithAttachments := Message.findWithAttachments db chatId
      let attachmentDetails := collectAttachmentDetails messagesWithAttachments
      let log1 := log0 ++
        [Effect.messageFindWithAttachments chatId,
         Effect.deleteFiles attachmentDetails,
         Effect.chatDeleteOne chat._id,
         Effect.messageDeleteMany chatId]
      let db1 := Message.deleteMany (Chat.deleteOne db chat._id) chatId
      match deleteFilesFromCloudinary attachmentDetails with
      | Except.error e => { response := some (json 500 false e), db := db1, log := log1 }
      | Except.ok _ =>
        { response := some (json 200 true "Chat deleted successfully")
          db := db1
          log := log1 ++ [Effect.emit EventName.REFETCH_CHATS members EventData.absent] }

/-- Handler `sendAttachments`; `files = none` is a request without `req.files`,
`uploadFilesToCloudinary` is the blob-storage helper of `utils/features`, `newId` and `now`
are the identifier and creation time the store gives the new message. -/
def sendAttachments (uploadFilesToCloudinary : List File → Except String (List Attachment))
    (db : DB) (user : ObjectId) (chatId : ObjectId) (reqFiles : Option (List File))
    (newId : ObjectId) (now : Nat) : Outcome :=
  let files := reqFiles.getD []
  if files.length < 1 then
    { response := some (json 400 false "Please provide attachments"), db := db, log := [] }
  else if files.length > 5 then
    { response := some (json 400 false "Files can\x27t be more than 5."), db := db, log := [] }
  else
    let log0 := [Effect.chatFindById chatId, Effect.userFindById user]
    match Chat.findById db chatId with
    | none => { response := some (json 400 false "Chat not found."), db := db, log := log0 }
    | some chat =>
      let log1 := log0 ++ [Effect.uploadFiles files]
      match uploadFilesToCloudinary files with
      | Except.error e => { response := some (json 500 false e), db := db, log := log1 }
      | Except.ok attachments =>
        match User.findById db user with
        | none =>
          { response := some (json 500 false (typeErrorMessage "null" "_id"))
            db := db, log := log1 }
        | some me =>
          let messageForDB : Message :=
            { _id := newId, chat := chatId, sender := me._id, content := ""
              attachments := attachments, createdAt := now }
          let messageForRealTime : MessageForRealTime :=
            { content := "", attachments := attachments
              sender := { _id := me._id, name := me.name }, chat := chatId }
          { response := some { status := 200, body := Body.sent true messageForDB }
            db := Message.create db messageForDB
            log := log1 ++
              [Effect.messageCreate messageForDB,
               Effect.emit EventName.NEW_MESSAGE (some chat.members)
                 (EventData.newMessage messageForRealTime chatId),
               Effect.emit EventName.NEW_MESSAGE_ALERT (some chat.members)
                 (EventData.chatOnly chatId)] }

/-- The constant `resultPerPage` of `getMessages`. -/
def resultPerPage : Nat := 20

/-- The value `Math.ceil(totalMessageCount / resultPerPage) || 0`. -/
def totalPagesOf (totalMessageCount : Nat) : Nat :=
  (totalMessageCount + (resultPerPage - 1)) / resultPerPage

/-- Handler `getMessages`; `page = none` is a query without `page` (default 1). The store
rejects a negative `skip`. -/
def getMessages (db : DB) (user : ObjectId) (chatId : ObjectId) (page : Option Nat) : Outcome :=
  let page := page.getD 1
  let skip : Int := ((page : Int) - 1) * (resultPerPage : Int)
  let log0 := [Effect.chatFindById chatId]
  match Chat.findById db chatId with
  | none => { response := some (json 404 false "Chat not found"), db := db, log := log0 }
  | some chat =>
    if ¬ chat.members.contains user then
      { response := some (json 403 false
          "You are not allowed to view the messages or may be you\x27ve been removed from the group")
        db := db, log := log0 }
    else
      let log1 := log0 ++
        [Effect.messageFindPage chatId skip resultPerPage, Effect.messageCount chatId]
      if skip < 0 then
        { response := some (json 500 false "Skip value must be non-negative")
          db := db, log := log1 }
      else
        let messages := ((Message.findSorted db chatId).drop skip.toNat).take resultPerPage
        let totalMessageCount := Message.countDocuments db chatId
        let totalPages := totalPagesOf totalMessageCount
        { response := some { status := 200, body := Body.page true messages.reverse totalPages }
          db := db, log := log1 }

/-! ## Orders, windows and helpers used in the statements -/

/-- The `{ public_id, resource_type }` of one attachment. -/
def detailOf (a : Attachment) : AttachmentDetail :=
  { public_id := a.public_id, resource_type := a.resource_type }

/-- An uploader that stores up to five files, in input order, each under a fresh public id. -/
def storeAll (files : List File) : Except String (List Attachment) :=
  Except.ok (List.zipWith
    (fun f id =>
      { public_id := id, resource_type := "image", url := "u/" ++ id ++ "/" ++ f.originalname })
    files ["p0", "p1", "p2", "p3", "p4"])

instance : IsTotal Message newerFirst := ⟨fun a b => Nat.le_total b.createdAt a.createdAt⟩

instance : IsTrans Message newerFirst := ⟨fun _ _ _ hab hbc => Nat.le_trans hbc hab⟩

/-- The window `.skip(resultPerPage * (p - 1)).limit(resultPerPage)` of a sorted result,
reversed: the messages of page `p`. -/
def pageOf (sorted : List Message) (p : Nat) : List Message :=
  ((sorted.drop (resultPerPage * (p - 1))).take resultPerPage).reverse

/-! ## Concrete databases -/

/-- Group of 100 members (identifiers 0 to 99) created by user 0, and one more user 200. -/
def fullGroupDB : DB :=
  { chats := [{ _id := 7, name := "full", groupChat := true, creator := some 0,
                members := List.range 100 }]
    users := [{ _id := 5, name := "eve" }, { _id := 200, name := "zed" }]
    messages := [] }

/-- Group 7 with members 1, 2, 3 created by user 1; user 9 is registered but not a member. -/
def trioDB : DB :=
  { chats := [{ _id := 7, name := "trio", groupChat := true, creator := some 1,
                members := [1, 2, 3] }]
    users := [{ _id := 1, name := "ann" }, { _id := 2, name := "bob" },
              { _id := 3, name := "cy" }, { _id := 9, name := "ian" }]
    messages := [] }

/-- Group 7 with members 1, 2, 3, 4 created by user 1; user 5 is registered, not a member. -/
def quartetDB : DB :=
  { chats := [{ _id := 7, name := "quartet", groupChat := true, creator := some 1,
                members := [1, 2, 3, 4] }]
    users := [{ _id := 1, name := "ann" }, { _id := 2, name := "bob" },
              { _id := 3, name := "cy" }, { _id := 4, name := "dee" },
              { _id := 5, name := "eve" }]
    messages := [] }

/-- Group 7 of 99 members (identifiers 0 to 98) created by user 0, and one more user 200. -/
def nearlyFullGroupDB : DB :=
  { chats := [{ _id := 7, name := "nearly full", groupChat := true, creator := some 0,
                members := List.range 99 }]
    users := [{ _id := 200, name := "zed" }]
    messages := [] }

/-- Direct chat 8 between users 1 and 2 and group 7 of `trioDB`, with four messages: in chat 8
one with two attachments, one without and one with one attachment, and in group 7 one with
one attachment. -/
def galleryDB : DB :=
  { chats := [{ _id := 7, name := "trio", groupChat := true, creator := some 1,
                members := [1, 2, 3] },
              { _id := 8, name := "", groupChat := false, creator := none, members := [1, 2] }]
    users := [{ _id := 1, name := "ann" }, { _id := 2, name := "bob" }]
    messages :=
      [{ _id := 31, chat := 8, sender := 1, content := "", createdAt := 10
         attachments := [{ public_id := "a", resource_type := "image", url := "u/a" },
                         { public_id := "b", resource_type := "video", url := "u/b" }] },
       { _id := 32, chat := 7, sender := 3, content := "", createdAt := 11
         attachments := [{ public_id := "c", resource_type := "raw", url := "u/c" }] },
       { _id := 33, chat := 8, sender := 2, content := "hello", createdAt := 12
         attachments := [] },
       { _id := 34, chat := 8, sender := 2, content := "", createdAt := 13
         attachments := [{ public_id := "d", resource_type := "image", url := "u/d" }] }] }

/-- Group 7 of `trioDB` with 25 messages whose creation times are a permutation of 0 to 24. -/
def feedDB : DB :=
  { chats := [{ _id := 7, name := "trio", groupChat := true, creator := some 1,
                members := [1, 2, 3] }]
    users := [{ _id := 1, name := "ann" }, { _id := 2, name := "bob" },
              { _id := 3, name := "cy" }]
    messages := (List.range 25).map (fun i =>
      { _id := 100 + i, chat := 7, sender := 1 + i % 3, content := "hi", attachments := []
        createdAt := (7 * i) % 25 }) }

/-! ## Lemmas on the document store -/

/-- Replacing the documents with the identifier of `doc` by `doc` makes a lookup that
succeeded return `doc`. -/
theorem find_replace (id : ObjectId) (doc : Chat) (hid : doc._id = id) :
    ∀ (cs : List Chat) (chat : Chat),
      cs.find? (fun c => decide (c._id = id)) = some chat →
      (cs.map (fun c => if c._id = doc._id then doc else c)).find?
        (fun c => decide (c._id = id)) = some doc := by
  intro cs
  induction cs with
  | nil => intro chat h; simp at h
  | cons c cs ih =>
    intro chat h
    by_cases hc : c._id = id
    · simp [List.find?, hc, hid]
    · have h2 : List.find? (fun c => decide (c._id = id)) cs = some chat := by
        simpa [List.find?, hc] using h
      have := ih chat h2
      rw [List.map_cons, hid, if_neg hc, List.find?_cons_of_neg _ (by simpa using hc)]
      rw [hid] at this
      exact this

/-- A document found by identifier has that identifier. -/
theorem Chat.findById_id {db : DB} {id : ObjectId} {chat : Chat}
    (h : Chat.findById db id = some chat) : chat._id = id := by
  unfold Chat.findById at h
  have := List.find?_some h
  simpa using this

/-- After `save`, the lookup of a loaded document returns the saved state. -/
theorem Chat.findById_save {db : DB} {id : ObjectId} {chat doc : Chat}
    (h : Chat.findById db id = some chat) (hid : doc._id = id) :
    Chat.findById (Chat.save db doc) id = some doc :=
  find_replace id doc hid db.chats chat h

/-- The users looked up for a candidate list carry the candidate identifiers, in order. -/
theorem derefAll_ids (db : DB) :
    ∀ (ids : List ObjectId) (us : List User),
      derefAll (ids.map (User.findById db)) = some us → us.map (fun i => i._id) = ids := by
  intro ids
  induction ids with
  | nil => intro us h; simp [derefAll] at h; simp [h]
  | cons i is ih =>
    intro us h
    simp only [List.map_cons] at h
    cases hu : User.findById db i with
    | none => simp [hu, derefAll] at h
    | some u =>
      rw [hu] at h
      simp only [derefAll, Option.map_eq_some'] at h
      obtain ⟨rest, hrest, rfl⟩ := h
      have hid : u._id = i := by
        unfold User.findById at hu
        simpa using List.find?_some hu
      simp [hid, ih rest hrest]

/-! ## Member limit of `addMembers` -/

/-- C1, as stated, fails: for the full group of `fullGroupDB`, a requester that is not the
creator and a candidate whose push would give 101 members, `addMembers` answers 403 "You are
not allowed to add members", not 400 "Group members limit reached". -/
theorem addMembers_limit_not_for_every_requester :
    (∃ chat allNewMembers,
      Chat.findById fullGroupDB 7 = some chat ∧ chat.groupChat = true ∧
      derefAll ([200].map (User.findById fullGroupDB)) = some allNewMembers ∧
      100 < (chat.members ++ uniqueMembers chat allNewMembers).length) ∧
    (addMembers fullGroupDB 5 7 (some [200])).response
      = some (json 403 false "You are not allowed to add members") ∧
    (addMembers fullGroupDB 5 7 (some [200])).response
      ≠ some (json 400 false "Group members limit reached") := by
  refine ⟨⟨_, _, rfl, rfl, rfl, ?_⟩, ?_, ?_⟩
  · simp [uniqueMembers, List.length_range]
  · decide
  · decide

/-- C1, amended: for every existing group chat, requester and candidate list, every document
`addMembers` saves has at most 100 members and is the persisted chat afterwards; and whenever
the candidates all resolve to users and the member list after the push would have more than
100 entries, `save` is not called, the database is unchanged, and, when the requester is the
creator and the candidate list is not empty, the response is 400 "Group members limit
reached". -/
theorem addMembers_never_exceeds_limit (db : DB) (user chatId : ObjectId)
    (members : Option (List ObjectId)) (chat : Chat)
    (hchat : Chat.findById db chatId = some chat) (hgroup : chat.groupChat = true) :
    (∀ doc, Effect.chatSave doc ∈ (addMembers db user chatId members).log →
      doc.members.length ≤ 100 ∧
      Chat.findById (addMembers db user chatId members).db chatId = some doc) ∧
    (∀ allNewMembers,
      derefAll ((members.getD []).map (User.findById db)) = some allNewMembers →
      100 < (chat.members ++ uniqueMembers chat allNewMembers).length →
      (∀ doc, Effect.chatSave doc ∉ (addMembers db user chatId members).log) ∧
      (addMembers db user chatId members).db = db ∧
      (chat.creator = some user → members.getD [] ≠ [] →
        (addMembers db user chatId members).response
          = some (json 400 false "Group members limit reached"))) := by
  have hid := Chat.findById_id hchat
  rcases members with _ | _ | ⟨m, ms⟩
  · simp [addMembers, hchat]
  · simp [addMembers, hchat]
  · cases hcr : chat.creator with
    | none => simp [addMembers, hchat, hgroup, hcr]
    | some creator =>
      by_cases hu : creator = user
      · cases hd : derefAll (User.findById db m :: ms.map (User.findById db)) with
        | none => simp [addMembers, hchat, hgroup, hcr, hu, hd]
        | some all =>
          by_cases hl : 100 < chat.members.length + (uniqueMembers chat all).length
          · simp [addMembers, hchat, hgroup, hcr, hu, hd, hl]
          · simp [addMembers, hchat, hgroup, hcr, hu, hd, hl]
            refine ⟨?_, ?_⟩
            · refine ⟨by simpa using hl, ?_⟩
              exact Chat.findById_save hchat hid
            · omega
      · simp [addMembers, hchat, hgroup, hcr, hu]

/-- C1, amended, at a concrete input: the creator of the full group adds user 200. -/
theorem addMembers_never_exceeds_limit_witness :
    (addMembers fullGroupDB 0 7 (some [200])).response
        = some (json 400 false "Group members limit reached") ∧
      (addMembers fullGroupDB 0 7 (some [200])).db = fullGroupDB ∧
      ∀ doc, Effect.chatSave doc ∉ (addMembers fullGroupDB 0 7 (some [200])).log :=
  have h := (addMembers_never_exceeds_limit fullGroupDB 0 7 (some [200])
    { _id := 7, name := "full", groupChat := true, creator := some 0, members := List.range 100 }
    rfl rfl).2 [{ _id := 200, name := "zed" }] rfl
    (by simp [uniqueMembers, List.length_range])
  ⟨h.2.2 rfl (by simp), h.2.1, h.1⟩

/-! ## Minimum size: `removeMembers` and `leaveGroup` on a group of three -/

/-- Filtering out a user that is not in the list changes nothing. -/
theorem filter_ne_of_not_mem (user : ObjectId) :
    ∀ (l : List ObjectId), user ∉ l → l.filter (fun member => decide (member ≠ user)) = l := by
  intro l h
  apply List.filter_eq_self.mpr
  intro a ha
  have : a ≠ user := fun e => h (e ▸ ha)
  simpa using this

/-- Filtering out a user that is in the list shortens it. -/
theorem filter_ne_length_lt (user : ObjectId) :
    ∀ (l : List ObjectId), user ∈ l →
      (l.filter (fun member => decide (member ≠ user))).length < l.length := by
  intro l h
  simp only [ne_eq, decide_not]
  induction l with
  | nil => simp at h
  | cons a as ih =>
    by_cases ha : a = user
    · have := List.length_filter_le (fun member => !decide (member = user)) as
      simp [List.filter, ha]
      omega
    · have h2 : user ∈ as := by
        rcases List.mem_cons.mp h with h | h
        · exact absurd h.symm ha
        · exact h
      have := ih h2
      simp [List.filter, ha]
      exact this

/-- C2, as stated, fails: on the three-member group of `trioDB`, `removeMembers` called by
member 2, who is not the creator, answers 403, and `leaveGroup` called by user 9, who is not
a member, answers 200 "You have left the group". -/
theorem min_size_not_for_every_requester :
    (∃ chat, Chat.findById trioDB 7 = some chat ∧ chat.groupChat = true ∧
      chat.members.length = 3) ∧
    (removeMembers trioDB 2 3 7).response
      = some (json 403 false "You are not allowed to remove members") ∧
    (leaveGroup trioDB 9 7 0).response = some (json 200 true "You have left the group") := by
  refine ⟨⟨_, rfl, rfl, rfl⟩, ?_, ?_⟩
  · decide
  · decide

/-- C2, amended: for every group chat with exactly 3 members, `removeMembers` called by the
creator (every target) and `leaveGroup` called by a requester that is in the member list
answer 400 "Group must have at least 3 members" and leave the database unchanged without a
save; moreover for every requester `removeMembers` leaves the database unchanged, and
`leaveGroup` leaves the persisted member list unchanged, and the creator too unless the
requester is the creator. -/
theorem min_size_guard (db : DB) (chatId : ObjectId) (chat : Chat)
    (hchat : Chat.findById db chatId = some chat) (hgroup : chat.groupChat = true)
    (hlen : chat.members.length = 3) :
    (∀ user userId, chat.creator = some user →
      (removeMembers db user userId chatId).response
          = some (json 400 false "Group must have at least 3 members") ∧
        (removeMembers db user userId chatId).db = db ∧
        ∀ doc, Effect.chatSave doc ∉ (removeMembers db user userId chatId).log) ∧
    (∀ user r, user ∈ chat.members →
      (leaveGroup db user chatId r).response
          = some (json 400 false "Group must have at least 3 members") ∧
        (leaveGroup db user chatId r).db = db ∧
        ∀ doc, Effect.chatSave doc ∉ (leaveGroup db user chatId r).log) ∧
    (∀ user userId, (removeMembers db user userId chatId).db = db) ∧
    (∀ user r, ∃ chat',
      Chat.findById (leaveGroup db user chatId r).db chatId = some chat' ∧
        chat'.members = chat.members ∧
        (chat.creator ≠ some user → chat'.creator = chat.creator)) := by
  have hid := Chat.findById_id hchat
  refine ⟨?_, ?_, ?_, ?_⟩
  · intro user userId hcr
    simp [removeMembers, hchat, hgroup, hcr, hlen]
  · intro user r hmem
    have hlt := filter_ne_length_lt user chat.members hmem
    have h3 : (chat.members.filter (fun member => decide (member ≠ user))).length < 3 := by
      omega
    simp only [ne_eq, decide_not] at h3
    simp [leaveGroup, hchat, hgroup, h3]
  · intro user userId
    cases hcr : chat.creator with
    | none => simp [removeMembers, hchat, hgroup, hcr]
    | some creator =>
      by_cases hu : creator = user
      · simp [removeMembers, hchat, hgroup, hcr, hu, hlen]
      · simp [removeMembers, hchat, hgroup, hcr, hu]
  · intro user r
    by_cases hmem : user ∈ chat.members
    · have hlt := filter_ne_length_lt user chat.members hmem
      have h3 : (chat.members.filter (fun member => decide (member ≠ user))).length < 3 := by
        omega
      simp only [ne_eq, decide_not] at h3
      refine ⟨chat, ?_, rfl, fun _ => rfl⟩
      simp [leaveGroup, hchat, hgroup, h3]
    · have hfil := filter_ne_of_not_mem user chat.members hmem
      simp only [ne_eq, decide_not] at hfil
      cases hcr : chat.creator with
      | none =>
        refine ⟨chat, ?_, rfl, fun _ => hcr⟩
        simp [leaveGroup, hchat, hgroup, hfil, hlen, hcr]
      | some creator =>
        cases hme : User.findById db user with
        | none =>
          simp only [leaveGroup, hchat, hgroup, hcr, hme]
          simp [hfil, hlen]
          refine ⟨_, Chat.findById_save hchat hid, rfl, ?_⟩
          intro hne
          simp [hne]
        | some me =>
          simp only [leaveGroup, hchat, hgroup, hcr, hme]
          simp [hfil, hlen]
          refine ⟨_, Chat.findById_save hchat hid, rfl, ?_⟩
          intro hne
          simp [hne]

/-- C2, amended, at a concrete input of `trioDB`: the creator removes member 2, member 2 leaves. -/
theorem min_size_guard_witness :
    (removeMembers trioDB 1 2 7).response
        = some (json 400 false "Group must have at least 3 members") ∧
      (leaveGroup trioDB 2 7 0).response
        = some (json 400 false "Group must have at least 3 members") ∧
      (leaveGroup trioDB 2 7 0).db = trioDB :=
  have h := min_size_guard trioDB 7
    { _id := 7, name := "trio", groupChat := true, creator := some 1, members := [1, 2, 3] }
    rfl rfl rfl
  ⟨(h.1 1 2 rfl).1, (h.2.1 2 0 (by decide)).1, (h.2.1 2 0 (by decide)).2.1⟩

/-! ## Creator succession in `leaveGroup` -/

/-- Rounding to the nearest integer moves up by at most one half. -/
theorem roundHalfEven_le (q : ℚ) : (roundHalfEven q : ℚ) ≤ q + 1 / 2 := by
  have hfl : (⌊q⌋ : ℚ) ≤ q := Int.floor_le q
  unfold roundHalfEven
  split_ifs with h1 h2 h3
  · linarith
  · push_cast; linarith
  · linarith
  · push_cast
    have : q - ⌊q⌋ = 1 / 2 := le_antisymm (not_lt.mp h2) (not_lt.mp h1)
    linarith

/-- A non-negative rational rounds to a non-negative integer. -/
theorem roundHalfEven_nonneg (q : ℚ) (hq : 0 ≤ q) : 0 ≤ roundHalfEven q := by
  have hfl : 0 ≤ ⌊q⌋ := Int.floor_nonneg.mpr hq
  unfold roundHalfEven
  split_ifs <;> omega

/-- A non-negative rational rounds to a non-negative binary64 number. -/
theorem binary64Pos_nonneg (x : ℚ) (hx : 0 ≤ x) : 0 ≤ binary64Pos x := by
  unfold binary64Pos
  have hu : (0 : ℚ) < 2 ^ (max (Int.log 2 x) (-1022) - 52) := zpow_pos (by norm_num) _
  have hr : 0 ≤ roundHalfEven (x / 2 ^ (max (Int.log 2 x) (-1022) - 52)) :=
    roundHalfEven_nonneg _ (div_nonneg hx hu.le)
  have hr' : (0 : ℚ) ≤ (roundHalfEven (x / 2 ^ (max (Int.log 2 x) (-1022) - 52)) : ℚ) := by
    exact_mod_cast hr
  exact mul_nonneg hr' hu.le

/-- Lower end of the binade of `x`. -/
theorem two_zpow_log_le (x : ℚ) (hx : 0 < x) : (2 : ℚ) ^ Int.log 2 x ≤ x := by
  have := Int.zpow_log_le_self (R := ℚ) (b := 2) (by norm_num) hx
  simpa using this

/-- Upper end of the binade of `x`. -/
theorem lt_two_zpow_log_succ (x : ℚ) : x < (2 : ℚ) ^ (Int.log 2 x + 1) := by
  have := Int.lt_zpow_succ_log_self (R := ℚ) (b := 2) (by norm_num) x
  simpa using this

/-- A product of `n` with a factor of at most `1 - 2^(-53)` rounds to less than `n`. -/
theorem binary64Pos_lt (x n : ℚ) (hx : 0 < x) (hn : 1 ≤ n)
    (hxn : x ≤ (1 - 1 / 2 ^ 53) * n) : binary64Pos x < n := by
  unfold binary64Pos
  set e := max (Int.log 2 x) (-1022) with he
  have hu : (0 : ℚ) < 2 ^ (e - 52) := zpow_pos (by norm_num) _
  have hround := roundHalfEven_le (x / 2 ^ (e - 52))
  have hle : (roundHalfEven (x / 2 ^ (e - 52)) : ℚ) * 2 ^ (e - 52)
      ≤ x + 2 ^ (e - 52) / 2 := by
    have := mul_le_mul_of_nonneg_right hround hu.le
    rw [add_mul, div_mul_cancel₀ x hu.ne'] at this
    linarith
  have hxlt : x < n := by
    have : (0 : ℚ) < 1 / 2 ^ 53 * n := by positivity
    linarith
  have hen : (2 : ℚ) ^ e < n := by
    rcases max_cases (Int.log 2 x) (-1022) with ⟨h, _⟩ | ⟨h, _⟩
    · rw [he, h]
      exact lt_of_le_of_lt (two_zpow_log_le x hx) hxlt
    · rw [he, h]
      have : (2 : ℚ) ^ (-1022 : Int) < 1 := by
        apply zpow_lt_one_of_neg₀ (by norm_num) (by norm_num)
      linarith
  have hsplit : (2 : ℚ) ^ (e - 52) / 2 = 2 ^ e * (1 / 2 ^ 53) := by
    rw [zpow_sub₀ (by norm_num : (2 : ℚ) ≠ 0)]
    norm_num
    ring
  have : (2 : ℚ) ^ e * (1 / 2 ^ 53) < n * (1 / 2 ^ 53) :=
    mul_lt_mul_of_pos_right hen (by positivity)
  linarith

/-- A binary64 number below 1 is at most `1 - 2^(-53)`. -/
theorem binary64_le_of_lt_one (r : ℚ) (hfix : binary64 r = r) (h0 : 0 < r) (h1 : r < 1) :
    r ≤ 1 - 1 / 2 ^ 53 := by
  have hpos : binary64Pos r = r := by
    unfold binary64 at hfix
    rwa [if_neg (not_lt.mpr h0.le)] at hfix
  unfold binary64Pos at hpos
  set e := max (Int.log 2 r) (-1022) with he
  set k := roundHalfEven (r / 2 ^ (e - 52)) with hk
  have hu : (0 : ℚ) < 2 ^ (e - 52) := zpow_pos (by norm_num) _
  have hlog : Int.log 2 r < 0 := by
    have := (Int.lt_zpow_iff_log_lt (R := ℚ) (b := 2) (by norm_num) (x := 0) h0).mp
      (by simpa using h1)
    exact this
  have he1 : e + 1 ≤ 0 := by
    rcases max_cases (Int.log 2 r) (-1022) with ⟨h, _⟩ | ⟨h, _⟩ <;> rw [he, h] <;> omega
  have hle : Int.log 2 r + 1 ≤ e + 1 := by
    have := le_max_left (Int.log 2 r) (-1022)
    omega
  have hr_lt : r < (2 : ℚ) ^ (e + 1) :=
    lt_of_lt_of_le (lt_two_zpow_log_succ r)
      (zpow_le_zpow_right₀ (by norm_num) hle)
  have hpow : (2 : ℚ) ^ (e + 1) = 2 ^ 53 * 2 ^ (e - 52) := by
    have : e + 1 = 53 + (e - 52) := by omega
    rw [this, zpow_add₀ (by norm_num : (2 : ℚ) ≠ 0)]
    norm_num
  have hklt : (k : ℚ) < 2 ^ 53 := by
    have : (k : ℚ) * 2 ^ (e - 52) < 2 ^ 53 * 2 ^ (e - 52) := by
      rw [hpos, ← hpow]; exact hr_lt
    exact lt_of_mul_lt_mul_right this hu.le
  have hkle : (k : ℚ) ≤ 2 ^ 53 - 1 := by
    have h1 : k < 2 ^ 53 := by exact_mod_cast hklt
    have h2 : k ≤ 2 ^ 53 - 1 := by omega
    exact_mod_cast h2
  have hone : (2 : ℚ) ^ (e + 1) ≤ 1 := zpow_le_one_of_nonpos₀ (by norm_num) he1
  calc r = (k : ℚ) * 2 ^ (e - 52) := hpos.symm
    _ ≤ (2 ^ 53 - 1) * 2 ^ (e - 52) := mul_le_mul_of_nonneg_right hkle hu.le
    _ = (1 - 1 / 2 ^ 53) * 2 ^ (e + 1) := by rw [hpow]; ring
    _ ≤ (1 - 1 / 2 ^ 53) * 1 := mul_le_mul_of_nonneg_left hone (by norm_num)
    _ = 1 - 1 / 2 ^ 53 := mul_one _

/-- Zero is a binary64 number. -/
theorem binary64_zero : binary64 0 = 0 := by
  simp [binary64, binary64Pos, roundHalfEven]

/-- For a binary64 number `r` in `[0,1)` the index `Math.floor(r * n)` lies in `[0, n)`. -/
theorem randomElement_range (r : ℚ) (n : Nat) (hfix : binary64 r = r) (h0 : 0 ≤ r)
    (h1 : r < 1) (hn : 0 < n) :
    0 ≤ randomElement r n ∧ (randomElement r n).toNat < n := by
  unfold randomElement
  have hn' : (1 : ℚ) ≤ (n : ℚ) := by exact_mod_cast hn
  have hbound : 0 ≤ binary64 (r * (n : ℚ)) ∧ binary64 (r * (n : ℚ)) < (n : ℚ) := by
    rcases h0.eq_or_lt with h | h
    · rw [← h, zero_mul, binary64_zero]
      exact ⟨le_refl _, by linarith⟩
    · have hx : 0 < r * (n : ℚ) := mul_pos h (by linarith)
      have hxn : r * (n : ℚ) ≤ (1 - 1 / 2 ^ 53) * (n : ℚ) :=
        mul_le_mul_of_nonneg_right (binary64_le_of_lt_one r hfix h h1) (by linarith)
      have hb : binary64 (r * (n : ℚ)) = binary64Pos (r * (n : ℚ)) := by
        unfold binary64
        rw [if_neg (not_lt.mpr hx.le)]
      rw [hb]
      exact ⟨binary64Pos_nonneg _ hx.le, binary64Pos_lt _ _ hx hn' hxn⟩
  have hfl0 : 0 ≤ ⌊binary64 (r * (n : ℚ))⌋ := Int.floor_nonneg.mpr hbound.1
  have hfl1 : ⌊binary64 (r * (n : ℚ))⌋ < (n : Int) := by
    apply Int.floor_lt.mpr
    exact_mod_cast hbound.2
  exact ⟨hfl0, by omega⟩

/-- The binade exponent of `x` from its two bounds. -/
theorem int_log_two_eq (x : ℚ) (e : Int) (hx : 0 < x) (hlo : (2 : ℚ) ^ e ≤ x)
    (hhi : x < (2 : ℚ) ^ (e + 1)) : Int.log 2 x = e := by
  have h1 : e ≤ Int.log 2 x :=
    (Int.zpow_le_iff_le_log (R := ℚ) (b := 2) (by norm_num) hx).mp (by simpa using hlo)
  have h2 : Int.log 2 x < e + 1 :=
    (Int.lt_zpow_iff_log_lt (R := ℚ) (b := 2) (by norm_num) hx).mp (by simpa using hhi)
  omega

/-- One half is a binary64 number. -/
theorem binary64_half : binary64 (1 / 2) = 1 / 2 := by
  have hlog : Int.log 2 (1 / 2 : ℚ) = -1 :=
    int_log_two_eq _ _ (by norm_num) (by norm_num) (by norm_num)
  unfold binary64 binary64Pos
  rw [if_neg (by norm_num), hlog]
  norm_num [roundHalfEven]

/-- The index for the random value 1/2 and three remaining members is 1. -/
theorem randomElement_half_three : randomElement (1 / 2) 3 = 1 := by
  have hlog : Int.log 2 ((1 / 2 : ℚ) * ((3 : Nat) : ℚ)) = 0 :=
    int_log_two_eq _ _ (by norm_num) (by norm_num) (by norm_num)
  unfold randomElement binary64 binary64Pos
  rw [if_neg (by norm_num), hlog]
  norm_num [roundHalfEven]

/-- A tie of the product: for the binary64 number `2573485501354569 / 2^52` and seven
remaining members the product `4 - 2^(-52)` lies halfway between two binary64 numbers and
rounds to `4`, so the index is 4. -/
theorem randomElement_tie : randomElement (2573485501354569 / 4503599627370496) 7 = 4 := by
  have hlog : Int.log 2 ((2573485501354569 / 4503599627370496 : ℚ) * ((7 : Nat) : ℚ)) = 1 :=
    int_log_two_eq _ _ (by norm_num) (by norm_num) (by norm_num)
  unfold randomElement binary64 binary64Pos
  rw [if_neg (by norm_num), hlog]
  norm_num [roundHalfEven]

/-- C3: when the creator leaves a group whose remaining list (the members other than the
requester) has at least 3 entries and the random source returns a number `r` in `[0,1)`, the
index `Math.floor(r * remaining.length)`, the product being the binary64 product the code
forms, is in range, the persisted chat has the element of the remaining list at that index as
creator and the remaining list as members (and that document is the one saved), and the new
creator is in the remaining list and is not the departing user. -/
theorem leaveGroup_creator_succession (db : DB) (user chatId : ObjectId) (chat : Chat) (r : ℚ)
    (remaining : List ObjectId)
    (hchat : Chat.findById db chatId = some chat) (hgroup : chat.groupChat = true)
    (hcreator : chat.creator = some user)
    (hnumber : binary64 r = r) (hr0 : 0 ≤ r) (hr1 : r < 1)
    (hremaining : remaining = chat.members.filter (fun member => decide (member ≠ user)))
    (hrem : 3 ≤ remaining.length) :
    ∃ (i : Nat) (newCreator : ObjectId),
      (i : Int) = ⌊binary64 (r * (remaining.length : ℚ))⌋ ∧
      i < remaining.length ∧
      remaining[i]? = some newCreator ∧
      newCreator ∈ remaining ∧
      newCreator ≠ user ∧
      Chat.findById (leaveGroup db user chatId r).db chatId
        = some { chat with creator := some newCreator, members := remaining } ∧
      Effect.chatSave { chat with creator := some newCreator, members := remaining }
        ∈ (leaveGroup db user chatId r).log := by
  have hid := Chat.findById_id hchat
  obtain ⟨h0, hlt⟩ := randomElement_range r remaining.length hnumber hr0 hr1 (by omega)
  have hnot : ¬ remaining.length < 3 := by omega
  refine ⟨(randomElement r remaining.length).toNat,
    remaining[(randomElement r remaining.length).toNat], ?_, hlt, ?_, ?_, ?_, ?_⟩
  · rw [Int.toNat_of_nonneg h0]; rfl
  · exact List.getElem?_eq_getElem hlt
  · exact List.getElem_mem hlt
  · have hall : ∀ x ∈ remaining, x ≠ user := by
      intro x hx
      rw [hremaining] at hx
      simpa using (List.mem_filter.mp hx).2
    exact hall _ (List.getElem_mem hlt)
  · have harr : arrayAt remaining (randomElement r remaining.length)
        = some (remaining[(randomElement r remaining.length).toNat]) := by
      simp only [arrayAt, h0, if_true]
      exact List.getElem?_eq_getElem hlt
    unfold leaveGroup
    simp only [hchat, hgroup, hcreator, ← hremaining, hnot, harr, if_true, if_false]
    cases hme : User.findById db user with
    | none =>
      simp only []
      refine ⟨Chat.findById_save hchat hid, ?_⟩
      simp
    | some me =>
      simp only []
      refine ⟨Chat.findById_save hchat hid, ?_⟩
      simp

/-- C3 at a concrete input: creator 1 leaves the group of `quartetDB` with random value 1/2;
the index is 1 and member 3 becomes the creator. -/
theorem leaveGroup_creator_succession_witness :
    Chat.findById (leaveGroup quartetDB 1 7 (1 / 2)).db 7
      = some { _id := 7, name := "quartet", groupChat := true, creator := some 3,
               members := [2, 3, 4] } := by
  obtain ⟨i, newCreator, hi, _, hget, _, _, hdb, _⟩ :=
    leaveGroup_creator_succession quartetDB 1 7
      { _id := 7, name := "quartet", groupChat := true, creator := some 1,
        members := [1, 2, 3, 4] }
      (1 / 2) [2, 3, 4] rfl rfl rfl binary64_half (by norm_num) (by norm_num) rfl (by decide)
  have hidx : (i : Int) = 1 := by
    rw [hi]
    exact randomElement_half_three
  have hi1 : i = 1 := by omega
  subst hi1
  have hnew : newCreator = 3 := by
    simpa using hget.symm
  subst hnew
  exact hdb

/-! ## The creator as a member -/

/-- C4 fails on the code: in `quartetDB` the creator 1 is a member of group 7; `removeMembers`
called by the creator with the creator as target succeeds and persists members 2, 3, 4 with
creator 1, so the persisted creator is no longer a member. -/
theorem removeMembers_creator_leaves_creator_outside :
    (∃ chat creator, Chat.findById quartetDB 7 = some chat ∧ chat.creator = some creator ∧
      creator ∈ chat.members) ∧
    (removeMembers quartetDB 1 1 7).response
      = some (json 200 true "Member removed successfully") ∧
    (∃ chat creator, Chat.findById (removeMembers quartetDB 1 1 7).db 7 = some chat ∧
      chat.members = [2, 3, 4] ∧ chat.creator = some creator ∧ creator ∉ chat.members) := by
  refine ⟨⟨_, 1, rfl, rfl, by decide⟩, by decide, ⟨_, 1, rfl, rfl, rfl, by decide⟩⟩

/-! ## Authorization -/

/-- C5, as stated, fails: in `trioDB` member 2 is not the creator of group 7, and `addMembers`
with an empty candidate list answers 400 "Please provide members to add", not 403. -/
theorem addMembers_empty_list_not_forbidden :
    (∃ chat creator, Chat.findById trioDB 7 = some chat ∧ chat.groupChat = true ∧
      chat.creator = some creator ∧ creator ≠ 2) ∧
    (addMembers trioDB 2 7 (some [])).response
      = some (json 400 false "Please provide members to add") ∧
    (addMembers trioDB 2 7 (some [])).response
      ≠ some (json 403 false "You are not allowed to add members") := by
  refine ⟨⟨_, 1, rfl, rfl, rfl, by decide⟩, by decide, by decide⟩

/-- C5, amended: for every existing group chat and every requester that is not its creator,
`renameChat` (every name), `addMembers` (every non-empty candidate list) and `removeMembers`
(every target) answer 403, call no save and leave the database unchanged; and for every
existing chat and every requester not in its member list, `getMessages` (every page) answers
403 with a text body, so no messages, and leaves the database unchanged. -/
theorem non_creator_and_non_member_forbidden (db : DB) (user chatId : ObjectId) (chat : Chat)
    (hchat : Chat.findById db chatId = some chat) :
    (chat.groupChat = true → ∀ creator, chat.creator = some creator → creator ≠ user →
      (∀ name,
        (renameChat db user chatId name).response
            = some (json 403 false "You are not allowed to rename the group") ∧
          (renameChat db user chatId name).db = db ∧
          ∀ doc, Effect.chatSave doc ∉ (renameChat db user chatId name).log) ∧
      (∀ m ms,
        (addMembers db user chatId (some (m :: ms))).response
            = some (json 403 false "You are not allowed to add members") ∧
          (addMembers db user chatId (some (m :: ms))).db = db ∧
          ∀ doc, Effect.chatSave doc ∉ (addMembers db user chatId (some (m :: ms))).log) ∧
      (∀ userId,
        (removeMembers db user userId chatId).response
            = some (json 403 false "You are not allowed to remove members") ∧
          (removeMembers db user userId chatId).db = db ∧
          ∀ doc, Effect.chatSave doc ∉ (removeMembers db user userId chatId).log)) ∧
    (user ∉ chat.members → ∀ page,
      (getMessages db user chatId page).response
          = some (json 403 false
              "You are not allowed to view the messages or may be you\x27ve been removed from the group") ∧
        (getMessages db user chatId page).db = db) := by
  refine ⟨?_, ?_⟩
  · intro hgroup creator hcr hne
    refine ⟨?_, ?_, ?_⟩
    · intro name
      simp [renameChat, hchat, hgroup, hcr, hne]
    · intro m ms
      simp [addMembers, hchat, hgroup, hcr, hne]
    · intro userId
      simp [removeMembers, hchat, hgroup, hcr, hne]
  · intro hmem page
    simp [getMessages, hchat, hmem]

/-- C5, amended, at a concrete input of `trioDB`: member 2, not the creator,
renames the group; user 9, not a member, reads the messages. -/
theorem non_creator_and_non_member_forbidden_witness :
    (renameChat trioDB 2 7 "new").response
        = some (json 403 false "You are not allowed to rename the group") ∧
      (getMessages trioDB 9 7 (some 1)).response
        = some (json 403 false
            "You are not allowed to view the messages or may be you\x27ve been removed from the group") :=
  ⟨(((non_creator_and_non_member_forbidden trioDB 2 7
        { _id := 7, name := "trio", groupChat := true, creator := some 1, members := [1, 2, 3] }
        rfl).1 rfl 1 rfl (by decide)).1 "new").1,
   ((non_creator_and_non_member_forbidden trioDB 9 7
        { _id := 7, name := "trio", groupChat := true, creator := some 1, members := [1, 2, 3] }
        rfl).2 (by decide) (some 1)).1⟩

/-! ## Recipients of the refetch event of `deleteChat` -/

/-- C6 fails on the code: the creator 1 deletes group 7 of `trioDB`, whose members are 1, 2, 3;
the call succeeds and emits exactly one `REFETCH_CHATS` event, but its recipient argument is
`undefined` (the value of `chat.memebers`), not the member list. -/
theorem deleteChat_refetch_recipients_undefined :
    (deleteChat (fun _ => Except.ok ()) trioDB 1 7).response
      = some (json 200 true "Chat deleted successfully") ∧
    (deleteChat (fun _ => Except.ok ()) trioDB 1 7).log.filter
        (fun e => match e with
          | Effect.emit EventName.REFETCH_CHATS _ _ => true
          | _ => false)
      = [Effect.emit EventName.REFETCH_CHATS none EventData.absent] ∧
    Effect.emit EventName.REFETCH_CHATS (some [1, 2, 3]) EventData.absent
      ∉ (deleteChat (fun _ => Except.ok ()) trioDB 1 7).log := by
  refine ⟨by decide, by decide, by decide⟩

/-! ## Duplicate candidates in `addMembers` -/

/-- C10 fails on the code: the creator 1 of group 7 of `quartetDB` (members 1, 2, 3, 4, no
duplicates) adds the candidates 5, 5; the call succeeds and persists 1, 2, 3, 4, 5, 5, a list
with a duplicate, not 1, 2, 3, 4, 5. And in `nearlyFullGroupDB` (99 members) the candidates
200, 200, one distinct new member, are rejected with the member-limit error although
99 + 1 is not above 100. -/
theorem addMembers_repeated_candidate_duplicated :
    (addMembers quartetDB 1 7 (some [5, 5])).response
      = some (json 200 true "Members added successfully") ∧
    (∃ chat, Chat.findById (addMembers quartetDB 1 7 (some [5, 5])).db 7 = some chat ∧
      chat.members = [1, 2, 3, 4, 5, 5] ∧ ¬ chat.members.Nodup) ∧
    (addMembers nearlyFullGroupDB 0 7 (some [200, 200])).response
      = some (json 400 false "Group members limit reached") := by
  refine ⟨by decide, ⟨_, rfl, rfl, by decide⟩, ?_⟩
  simp [addMembers, Chat.findById, nearlyFullGroupDB, User.findById, derefAll, uniqueMembers,
    List.length_range]

/-! ## Cascading deletion in `deleteChat` -/

/-- The inner `forEach` appends the references of one message, in order. -/
theorem inner_forEach_eq (as : List Attachment) :
    ∀ init : List AttachmentDetail,
      as.foldl
        (fun acc a => acc ++ [{ public_id := a.public_id, resource_type := a.resource_type }])
        init
      = init ++ as.map detailOf := by
  induction as with
  | nil => intro init; simp
  | cons a as ih =>
    intro init
    simp [List.foldl, ih, detailOf]

/-- Appending message by message is the flat-map over the messages. -/
theorem foldl_append_flatMap (ms : List Message) :
    ∀ init : List AttachmentDetail,
      ms.foldl (fun details message => details ++ message.attachments.map detailOf) init
      = init ++ ms.flatMap (fun m => m.attachments.map detailOf) := by
  induction ms with
  | nil => intro init; simp
  | cons m ms ih =>
    intro init
    simp [List.foldl, ih]

/-- The outer `forEach` appends the references of all messages, in order. -/
theorem outer_forEach_eq (ms : List Message) (init : List AttachmentDetail) :
    ms.foldl
        (fun details message =>
          message.attachments.foldl
            (fun acc a => acc ++ [{ public_id := a.public_id, resource_type := a.resource_type }])
            details)
        init
      = init ++ ms.flatMap (fun m => m.attachments.map detailOf) := by
  have hfun : (fun (details : List AttachmentDetail) (message : Message) =>
        message.attachments.foldl
          (fun acc a => acc ++ [{ public_id := a.public_id, resource_type := a.resource_type }])
          details)
      = (fun details message => details ++ message.attachments.map detailOf) := by
    funext details message
    exact inner_forEach_eq message.attachments details
  rw [hfun]
  exact foldl_append_flatMap ms init

/-- The list `attachmentDetails` is the flat-map of the attachment references. -/
theorem collectAttachmentDetails_eq (ms : List Message) :
    collectAttachmentDetails ms = ms.flatMap (fun m => m.attachments.map detailOf) := by
  unfold collectAttachmentDetails
  rw [outer_forEach_eq]
  simp

/-- After `deleteOne`, no document with that identifier is found. -/
theorem find_after_delete (id : ObjectId) :
    ∀ cs : List Chat,
      (cs.filter (fun c => decide (c._id ≠ id))).find? (fun c => decide (c._id = id)) = none := by
  intro cs
  simp [List.find?_eq_none, List.mem_filter]

/-- The number of references is the sum of the attachment counts. -/
theorem length_flatMap_details (ms : List Message) :
    (ms.flatMap (fun m => m.attachments.map detailOf)).length
      = (ms.map (fun m => m.attachments.length)).sum := by
  induction ms with
  | nil => simp
  | cons m ms ih => simp [List.flatMap_cons, ih]

/-- C7: for every authorized `deleteChat` call (the creator for a group chat, a member for a
direct chat) where the messages-with-attachments query returns `M`, the list handed to blob
deletion, and the only one, is the concatenation in message order then attachment order of
the `{ public_id, resource_type }` of every attachment of every message of `M`; its length is
the sum of the attachment counts and its elements are exactly those references; the call also
issues the deletion of the chat document and of all messages of the chat, after which neither
the chat nor any of its messages is in the database, whatever blob deletion answers. -/
theorem deleteChat_blob_list (deleteFilesFromCloudinary : List AttachmentDetail → Except String Unit)
    (db : DB) (user chatId : ObjectId) (chat : Chat) (M : List Message)
    (hchat : Chat.findById db chatId = some chat)
    (hauth : (chat.groupChat = true ∧ chat.creator = some user) ∨
      (chat.groupChat = false ∧ user ∈ chat.members))
    (hM : M = Message.findWithAttachments db chatId) :
    (∀ details, Effect.deleteFiles details ∈ (deleteChat deleteFilesFromCloudinary db user chatId).log ↔
      details = M.flatMap (fun m => m.attachments.map detailOf)) ∧
    (M.flatMap (fun m => m.attachments.map detailOf)).length
      = (M.map (fun m => m.attachments.length)).sum ∧
    (∀ d, d ∈ M.flatMap (fun m => m.attachments.map detailOf) ↔
      ∃ m ∈ M, ∃ a ∈ m.attachments, d = detailOf a) ∧
    Effect.chatDeleteOne chatId ∈ (deleteChat deleteFilesFromCloudinary db user chatId).log ∧
    Effect.messageDeleteMany chatId ∈ (deleteChat deleteFilesFromCloudinary db user chatId).log ∧
    Chat.findById (deleteChat deleteFilesFromCloudinary db user chatId).db chatId = none ∧
    (∀ m ∈ (deleteChat deleteFilesFromCloudinary db user chatId).db.messages, m.chat ≠ chatId) := by
  have hid := Chat.findById_id hchat
  have hfind : Chat.findById (Message.deleteMany (Chat.deleteOne db chat._id) chatId) chatId
      = none := by
    rw [hid]
    exact find_after_delete chatId db.chats
  have hmsgs : ∀ m ∈ (Message.deleteMany (Chat.deleteOne db chat._id) chatId).messages,
      m.chat ≠ chatId := by
    intro m hm
    simp only [Message.deleteMany, Chat.deleteOne] at hm
    simpa using (List.mem_filter.mp hm).2
  have hguard1 : ¬ (chat.groupChat = true ∧ chat.creator = none) := by
    rcases hauth with ⟨_, h⟩ | ⟨h, _⟩ <;> simp [h]
  have hguard2 : ¬ (chat.groupChat = true ∧ chat.creator ≠ some user) := by
    rcases hauth with ⟨_, h⟩ | ⟨h, _⟩ <;> simp [h]
  have hguard3 : ¬ (chat.groupChat = false ∧ ¬ chat.members.contains user = true) := by
    rcases hauth with ⟨h, _⟩ | ⟨_, h⟩ <;> simp [h]
  refine ⟨?_, length_flatMap_details M, ?_, ?_, ?_, ?_, ?_⟩
  · intro details
    unfold deleteChat
    simp only [hchat, hguard1, hguard2, hguard3, if_false, ← hM, collectAttachmentDetails_eq]
    cases deleteFilesFromCloudinary (M.flatMap (fun m => m.attachments.map detailOf)) <;> simp
  · intro d
    simp only [List.mem_flatMap, List.mem_map]
    constructor
    · rintro ⟨m, hm, a, ha, rfl⟩
      exact ⟨m, hm, a, ha, rfl⟩
    · rintro ⟨m, hm, a, ha, rfl⟩
      exact ⟨m, hm, a, ha, rfl⟩
  · unfold deleteChat
    simp only [hchat, hguard1, hguard2, hguard3, if_false, ← hM, collectAttachmentDetails_eq]
    cases deleteFilesFromCloudinary (M.flatMap (fun m => m.attachments.map detailOf)) <;>
      simp [hid]
  · unfold deleteChat
    simp only [hchat, hguard1, hguard2, hguard3, if_false, ← hM, collectAttachmentDetails_eq]
    cases deleteFilesFromCloudinary (M.flatMap (fun m => m.attachments.map detailOf)) <;> simp
  · unfold deleteChat
    simp only [hchat, hguard1, hguard2, hguard3, if_false, ← hM, collectAttachmentDetails_eq]
    cases deleteFilesFromCloudinary (M.flatMap (fun m => m.attachments.map detailOf)) <;>
      exact hfind
  · unfold deleteChat
    simp only [hchat, hguard1, hguard2, hguard3, if_false, ← hM, collectAttachmentDetails_eq]
    cases deleteFilesFromCloudinary (M.flatMap (fun m => m.attachments.map detailOf)) <;>
      exact hmsgs

/-- C7 at a concrete input: member 2 deletes the direct chat 8 of `galleryDB`
while blob deletion fails. -/
theorem deleteChat_blob_list_witness :
    Effect.deleteFiles
        [{ public_id := "a", resource_type := "image" },
         { public_id := "b", resource_type := "video" },
         { public_id := "d", resource_type := "image" }]
      ∈ (deleteChat (fun _ => Except.error "unreachable") galleryDB 2 8).log ∧
    Chat.findById (deleteChat (fun _ => Except.error "unreachable") galleryDB 2 8).db 8 = none :=
  have h := deleteChat_blob_list (fun _ => Except.error "unreachable") galleryDB 2 8
    { _id := 8, name := "", groupChat := false, creator := none, members := [1, 2] }
    (Message.findWithAttachments galleryDB 8) rfl (Or.inr ⟨rfl, by decide⟩) rfl
  ⟨(h.1 _).mpr (by decide), h.2.2.2.2.2.1⟩

/-! ## Attachment batches in `sendAttachments` -/

/-- C8, as stated, fails: one file, the existing chat 7 of `trioDB` and an uploader returning
one reference per file, but a requester 42 without a user document: the handler uploads the
file, answers 500, not 200, creates no message and leaves the database unchanged. -/
theorem sendAttachments_unknown_sender_fails :
    (∃ chat, Chat.findById trioDB 7 = some chat) ∧
    (∃ attachments,
      storeAll [{ originalname := "cat.png" }] = Except.ok attachments ∧
      attachments.length = [({ originalname := "cat.png" } : File)].length) ∧
    (∃ res,
      (sendAttachments storeAll trioDB 42 7 (some [{ originalname := "cat.png" }]) 50
        1000).response = some res ∧ res.status = 500) ∧
    (∀ doc, Effect.messageCreate doc ∉
      (sendAttachments storeAll trioDB 42 7 (some [{ originalname := "cat.png" }]) 50 1000).log) ∧
    (sendAttachments storeAll trioDB 42 7 (some [{ originalname := "cat.png" }]) 50 1000).db
      = trioDB := by
  refine ⟨⟨_, rfl⟩, ⟨_, rfl, rfl⟩, ⟨_, rfl, rfl⟩, ?_, by decide⟩
  intro doc
  simp [sendAttachments, trioDB, Chat.findById, User.findById, storeAll]

/-- C8, amended: with 0 files, and with more than 5 files, `sendAttachments` answers 400
without any collaborator call (no chat lookup, upload or message creation) and leaves the
database unchanged; with 1 to 5 files, an existing chat, a requester that resolves to a user
document and an uploader returning a list with one reference per file, it answers 200 with
the created message, which has empty content and the upload result as attachments, in the
uploader's order, so as many attachments as input files, and that message is appended to the
store. -/
theorem sendAttachments_contract
    (uploadFilesToCloudinary : List File → Except String (List Attachment))
    (db : DB) (user chatId : ObjectId) (reqFiles : Option (List File)) (newId : ObjectId)
    (now : Nat) :
    ((reqFiles.getD []).length = 0 →
      sendAttachments uploadFilesToCloudinary db user chatId reqFiles newId now
        = { response := some (json 400 false "Please provide attachments"), db := db, log := [] }) ∧
    (5 < (reqFiles.getD []).length →
      sendAttachments uploadFilesToCloudinary db user chatId reqFiles newId now
        = { response := some (json 400 false "Files can\x27t be more than 5."), db := db,
            log := [] }) ∧
    (∀ (chat : Chat) (me : User) (attachments : List Attachment),
      1 ≤ (reqFiles.getD []).length → (reqFiles.getD []).length ≤ 5 →
      Chat.findById db chatId = some chat → User.findById db user = some me →
      uploadFilesToCloudinary (reqFiles.getD []) = Except.ok attachments →
      attachments.length = (reqFiles.getD []).length →
      ∃ message : Message,
        (sendAttachments uploadFilesToCloudinary db user chatId reqFiles newId now).response
          = some { status := 200, body := Body.sent true message } ∧
        message.content = "" ∧
        message.attachments = attachments ∧
        message.attachments.length = (reqFiles.getD []).length ∧
        message.chat = chatId ∧ message.sender = me._id ∧
        Effect.messageCreate message
          ∈ (sendAttachments uploadFilesToCloudinary db user chatId reqFiles newId now).log ∧
        (sendAttachments uploadFilesToCloudinary db user chatId reqFiles newId now).db.messages
          = db.messages ++ [message]) := by
  refine ⟨?_, ?_, ?_⟩
  · intro h0
    simp [sendAttachments, h0]
  · intro h5
    have h1 : ¬ (reqFiles.getD []).length < 1 := by omega
    simp [sendAttachments, h1, h5]
  · intro chat me attachments h1 h5 hchat hme hup hlen
    have h1' : ¬ (reqFiles.getD []).length < 1 := by omega
    have h5' : ¬ (reqFiles.getD []).length > 5 := by omega
    refine ⟨{ _id := newId, chat := chatId, sender := me._id, content := ""
              attachments := attachments, createdAt := now }, ?_⟩
    simp only [sendAttachments, h1', h5', hchat, hme, hup, if_false]
    simp [Message.create, hlen]

/-- C8, amended, at a concrete input: member 2 sends two files of the same name to chat 7 of
`trioDB`; the created message carries the two distinct references in the uploader's order. -/
theorem sendAttachments_contract_witness :
    ∃ message : Message,
      (sendAttachments storeAll trioDB 2 7
          (some [{ originalname := "cat.png" }, { originalname := "cat.png" }]) 50 1000).response
        = some { status := 200, body := Body.sent true message } ∧
      message.content = "" ∧
      message.attachments
        = [{ public_id := "p0", resource_type := "image", url := "u/p0/cat.png" },
           { public_id := "p1", resource_type := "image", url := "u/p1/cat.png" }] := by
  obtain ⟨message, hres, hcontent, hatt, _⟩ :=
    (sendAttachments_contract storeAll trioDB 2 7
      (some [{ originalname := "cat.png" }, { originalname := "cat.png" }]) 50 1000).2.2
      { _id := 7, name := "trio", groupChat := true, creator := some 1, members := [1, 2, 3] }
      { _id := 2, name := "bob" }
      [{ public_id := "p0", resource_type := "image", url := "u/p0/cat.png" },
       { public_id := "p1", resource_type := "image", url := "u/p1/cat.png" }]
      (by decide) (by decide) rfl rfl rfl rfl
  exact ⟨message, hres, hcontent, hatt⟩

/-! ## Pages of `getMessages` -/

/-- The sorted query result is ordered newest first. -/
theorem findSorted_sorted (db : DB) (chatId : ObjectId) :
    (Message.findSorted db chatId).Sorted newerFirst :=
  List.sorted_insertionSort newerFirst _

/-- The sorted query returns as many messages as `countDocuments` counts. -/
theorem findSorted_length (db : DB) (chatId : ObjectId) :
    (Message.findSorted db chatId).length = Message.countDocuments db chatId :=
  List.length_insertionSort newerFirst _

/-- Length of a page. -/
theorem pageOf_length (sorted : List Message) (p : Nat) :
    (pageOf sorted p).length = min resultPerPage (sorted.length - resultPerPage * (p - 1)) := by
  simp [pageOf]

/-- A page of a newest-first list is oldest-first. -/
theorem pageOf_chronological (sorted : List Message) (p : Nat)
    (h : sorted.Sorted newerFirst) :
    (pageOf sorted p).Sorted (fun a b => a.createdAt ≤ b.createdAt) := by
  unfold pageOf
  have h1 : ((sorted.drop (resultPerPage * (p - 1))).take resultPerPage).Pairwise newerFirst :=
    (List.Pairwise.sublist ((List.take_sublist _ _).trans (List.drop_sublist _ _)) h)
  exact List.pairwise_reverse.mpr h1

/-- Every message of a page is at least as new as every message of the next page. -/
theorem pageOf_newer_than_next (sorted : List Message) (p : Nat) (hp : 1 ≤ p)
    (h : sorted.Sorted newerFirst) :
    ∀ a ∈ pageOf sorted p, ∀ b ∈ pageOf sorted (p + 1), b.createdAt ≤ a.createdAt := by
  intro a ha b hb
  unfold pageOf at ha hb
  rw [List.mem_reverse] at ha hb
  have hsplit : sorted = sorted.take (resultPerPage * p) ++ sorted.drop (resultPerPage * p) :=
    (List.take_append_drop _ _).symm
  have ha' : a ∈ sorted.take (resultPerPage * p) := by
    rw [List.take_drop] at ha
    have : resultPerPage * (p - 1) + resultPerPage = resultPerPage * p := by
      obtain ⟨q, rfl⟩ : ∃ q, p = q + 1 := ⟨p - 1, by omega⟩
      simp [Nat.mul_succ]
    rw [this] at ha
    exact List.mem_of_mem_drop ha
  have hb' : b ∈ sorted.drop (resultPerPage * p) := by
    have := List.mem_of_mem_take hb
    simpa using this
  have hpair : (sorted.take (resultPerPage * p) ++ sorted.drop (resultPerPage * p)).Pairwise
      newerFirst := by
    rw [← hsplit]; exact h
  exact (List.pairwise_append.mp hpair).2.2 a ha' b hb'

/-- The page count is the ceiling of `n / 20`. -/
theorem totalPagesOf_eq_ceil (n : Nat) : totalPagesOf n = ⌈(n : ℚ) / 20⌉₊ := by
  apply le_antisymm
  · have hle : (n : ℚ) / 20 ≤ (⌈(n : ℚ) / 20⌉₊ : ℚ) := Nat.le_ceil _
    have h2 : (n : ℚ) ≤ 20 * (⌈(n : ℚ) / 20⌉₊ : ℚ) := by
      have := (div_le_iff₀ (by norm_num : (0 : ℚ) < 20)).mp hle
      linarith
    have h3 : n ≤ 20 * ⌈(n : ℚ) / 20⌉₊ := by exact_mod_cast h2
    unfold totalPagesOf resultPerPage
    omega
  · apply Nat.ceil_le.mpr
    rw [div_le_iff₀ (by norm_num : (0 : ℚ) < 20)]
    have h3 : n ≤ totalPagesOf n * 20 := by
      unfold totalPagesOf resultPerPage
      omega
    exact_mod_cast h3

/-- C9: for an existing chat with `n` messages, a requester in its member list and a page
`p >= 1`, `getMessages` answers 200 with the messages at positions `[20(p-1), 20(p-1)+20)` of
the newest-first ordering of the chat's messages, reversed, and `totalPages = ceil(n / 20)`;
the returned list is oldest-first, has length `min(20, max(0, n - 20(p-1)))`, every message of
page `p` is at least as new as every message of page `p+1`, `totalPages` is 0 when `n = 0`,
and for `n = 25` page 1 has 20 messages, page 2 the remaining 5 and `totalPages = 2`. -/
theorem getMessages_page (db : DB) (user chatId : ObjectId) (chat : Chat) (p : Nat)
    (sorted : List Message) (n : Nat)
    (hchat : Chat.findById db chatId = some chat) (hmem : user ∈ chat.members) (hp : 1 ≤ p)
    (hsorted : sorted = Message.findSorted db chatId)
    (hn : n = Message.countDocuments db chatId) :
    (getMessages db user chatId (some p)).response
      = some { status := 200
               body := Body.page true (((sorted.drop (20 * (p - 1))).take 20).reverse)
                 (totalPagesOf n) } ∧
    pageOf sorted p = ((sorted.drop (20 * (p - 1))).take 20).reverse ∧
    sorted.Sorted newerFirst ∧
    sorted.Perm (db.messages.filter (fun m => decide (m.chat = chatId))) ∧
    sorted.length = n ∧
    (pageOf sorted p).Sorted (fun a b => a.createdAt ≤ b.createdAt) ∧
    ((pageOf sorted p).length : Int) = min 20 (max 0 ((n : Int) - 20 * ((p : Int) - 1))) ∧
    (∀ a ∈ pageOf sorted p, ∀ b ∈ pageOf sorted (p + 1), b.createdAt ≤ a.createdAt) ∧
    totalPagesOf n = ⌈(n : ℚ) / 20⌉₊ ∧
    (n = 0 → totalPagesOf n = 0) ∧
    (n = 25 → totalPagesOf n = 2 ∧ (pageOf sorted 1).length = 20 ∧
      (pageOf sorted 2).length = 5 ∧ pageOf sorted 2 ++ pageOf sorted 1 = sorted.reverse) := by
  have hs : sorted.Sorted newerFirst := hsorted ▸ findSorted_sorted db chatId
  have hlen : sorted.length = n := by rw [hsorted, hn]; exact findSorted_length db chatId
  have hmem' : chat.members.contains user = true := by simpa using hmem
  have hskip : ¬ (((p : Int) - 1) * (resultPerPage : Int) < 0) := by
    have : (0 : Int) ≤ (p : Int) - 1 := by omega
    have := mul_nonneg this (by simp [resultPerPage] : (0 : Int) ≤ (resultPerPage : Int))
    omega
  have htoNat : (((p : Int) - 1) * (resultPerPage : Int)).toNat = 20 * (p - 1) := by
    simp only [resultPerPage]
    omega
  refine ⟨?_, rfl, hs, ?_, hlen, pageOf_chronological sorted p hs, ?_,
    pageOf_newer_than_next sorted p hp hs, totalPagesOf_eq_ceil n, ?_, ?_⟩
  · simp only [getMessages, hchat, hmem', Option.getD_some, not_true_eq_false, if_false, hskip,
      htoNat, ← hsorted, ← hn]
    rfl
  · rw [hsorted]
    exact List.perm_insertionSort newerFirst _
  · rw [pageOf_length, hlen]
    simp only [resultPerPage]
    omega
  · intro h0
    simp [h0, totalPagesOf, resultPerPage]
  · intro h25
    have hl : sorted.length = 25 := by rw [hlen, h25]
    refine ⟨by simp [h25, totalPagesOf, resultPerPage], ?_, ?_, ?_⟩
    · rw [pageOf_length, hl]; simp [resultPerPage]
    · rw [pageOf_length, hl]; simp [resultPerPage]
    · have htake : (sorted.drop 20).take 20 = sorted.drop 20 := by
        apply List.take_of_length_le
        simp [hl]
      simp only [pageOf, resultPerPage]
      simp only [Nat.sub_self, Nat.mul_zero, List.drop_zero, Nat.add_one_sub_one, Nat.mul_one,
        Nat.reduceSub, htake]
      rw [← List.reverse_append, List.take_append_drop]

/-- C9 at a concrete input: member 2 reads page 1 of the 25 messages of `feedDB`. -/
theorem getMessages_page_witness :
    (getMessages feedDB 2 7 (some 1)).response
        = some { status := 200
                 body := Body.page true (pageOf (Message.findSorted feedDB 7) 1) 2 } ∧
      (pageOf (Message.findSorted feedDB 7) 1).length = 20 ∧
      (pageOf (Message.findSorted feedDB 7) 2).length = 5 ∧
      (pageOf (Message.findSorted feedDB 7) 1).map (fun m => m.createdAt)
        = [5, 6, 7, 8, 9, 10, 11, 12, 13, 14, 15, 16, 17, 18, 19, 20, 21, 22, 23, 24] :=
  have h := getMessages_page feedDB 2 7
    { _id := 7, name := "trio", groupChat := true, creator := some 1, members := [1, 2, 3] }
    1 (Message.findSorted feedDB 7) 25 rfl (by decide) (by decide) rfl (by decide)
  ⟨h.1, (h.2.2.2.2.2.2.2.2.2.2 rfl).2.1, (h.2.2.2.2.2.2.2.2.2.2 rfl).2.2.1, by decide⟩

end ChatControllers
